import Mathlib

/-!
Shallow embedding of the hacs-anylist TypeScript core (API client `AnyList`,
process manager `AnyListServer`, credential manager `AuthManager`).

HTTP transport, the child process and the file system are external
collaborators; they are modelled as explicit parameters (an `HttpOutcome`
per call, a `StopBehavior` / `SpawnEnv` per lifecycle call, an
`Option CredFile` for the credentials file), and the functions below are
line-by-line translations of the TypeScript bodies over these inputs.
-/

namespace HacsAnylist

/-- `AnyListErrorType` enum from `src/types/index.ts`. -/
inductive AnyListErrorType where
  | NETWORK_ERROR
  | AUTH_ERROR
  | SERVER_ERROR
  | BINARY_ERROR
  | VALIDATION_ERROR
  deriving DecidableEq, Repr

/-- A thrown JavaScript error that is not an `AnyListError` (e.g. an axios
error).  `tag` is an opaque identity; `responseStatus` models
`error.response?.status` (present when the transport delivered an HTTP
response inside the thrown error). -/
structure ExternalError where
  tag : Nat
  responseStatus : Option Int := none
  deriving DecidableEq, Repr

/-- `AnyListError` class from `src/types/index.ts`: message, kind, optional
numeric code, optional wrapped original error. -/
structure AnyListError where
  message : String
  type : AnyListErrorType
  code : Option Int := none
  originalError : Option ExternalError := none
  deriving DecidableEq, Repr

/-- Runtime JavaScript values as they appear in `Record<string, unknown>`
update objects. -/
inductive JSValue where
  | str (s : String)
  | boolean (b : Bool)
  | num (n : Int)
  | null
  | undef
  deriving DecidableEq, Repr

/-- `AnyListConfig` interface (all fields optional). -/
structure AnyListConfig where
  serverAddress : Option String := none
  email : Option String := none
  password : Option String := none
  serverBinary : Option String := none
  defaultList : Option String := none
  refreshInterval : Option Int := none
  deriving DecidableEq, Repr

/-- `ServerConfig` interface for the binary server process manager. -/
structure ServerConfig where
  binary : String
  port : String
  email : String
  password : String
  credentialsFile : String
  ipFilter : Option String := none
  deriving DecidableEq, Repr

/-- Mutable state of an `AnyListServer` instance: its config, the optional
child-process handle (`undefined` = `none`) and the `isRunning` flag. -/
structure AnyListServerState where
  config : ServerConfig
  process : Option Nat := none
  isRunning : Bool := false
  deriving DecidableEq, Repr

/-- `AnyListServer.available` getter: `this.isRunning && this.process !== undefined`. -/
def available (st : AnyListServerState) : Bool :=
  st.isRunning && st.process.isSome

/-- State of an `AnyList` client instance: its config and the optional
bound binary server (`setBinaryServer`). -/
structure AnyListState where
  config : AnyListConfig
  binaryServer : Option AnyListServerState := none
  deriving DecidableEq, Repr

/-- JavaScript truthiness of an optional string (`undefined` and `""` are falsy). -/
def optStrTruthy (o : Option String) : Bool :=
  match o with
  | none => false
  | some s => s ≠ ""

/-- JavaScript `a || b` for an optional string `a` and fallback string `b`. -/
def jsOrStr (a : Option String) (b : String) : String :=
  match a with
  | none => b
  | some s => if s ≠ "" then s else b

/-- JavaScript `a || b` for an optional number `a` (`undefined` and `0` are
falsy) and fallback `b`; models `axiosError.response?.status || 500`. -/
def jsOrInt (a : Option Int) (b : Int) : Int :=
  match a with
  | none => b
  | some n => if n ≠ 0 then n else b

/-- `AnyList.getListName`: `listName || this.config.defaultList || ''`. -/
def getListName (st : AnyListState) (listName : Option String) : String :=
  jsOrStr listName (jsOrStr st.config.defaultList "")

/-- `AnyList.getServerAddress`: configured address if truthy, else the fixed
loopback address when the bound binary server is available, else a
SERVER_ERROR. -/
def getServerAddress (st : AnyListState) : Except AnyListError String :=
  if optStrTruthy st.config.serverAddress then
    Except.ok (st.config.serverAddress.getD "")
  else if (st.binaryServer.map available).getD false then
    Except.ok "http://127.0.0.1:28597"
  else
    Except.error { message := "Binary server is not running", type := .SERVER_ERROR }

/-- `AnyList.getServerUrl`: `${address}/${endpoint}` (address resolution may throw). -/
def getServerUrl (st : AnyListState) (endpoint : String) : Except AnyListError String :=
  (getServerAddress st).map (fun address => address ++ "/" ++ endpoint)

/-- Outcome of one HTTP call made through the axios instance: either a
response object with a status and parsed data, or a thrown (non-`AnyListError`)
error. -/
inductive HttpOutcome (α : Type) where
  | response (status : Int) (data : α)
  | thrown (err : ExternalError)
  deriving DecidableEq, Repr

/-- A request body object (`Record<string, unknown>`) restricted to the keys
the client ever writes; `none` = key absent. -/
structure ItemBody where
  id : Option JSValue := none
  name : Option JSValue := none
  list : Option JSValue := none
  checked : Option JSValue := none
  notes : Option JSValue := none
  deriving DecidableEq, Repr

/-- A caller-supplied `updates` record (`Record<string, unknown>`); only the
keys `name`, `checked`, `notes` are ever consulted.  `some v` = key present
with runtime value `v`. -/
structure ItemUpdates where
  name : Option JSValue := none
  checked : Option JSValue := none
  notes : Option JSValue := none
  deriving DecidableEq, Repr

/-- `AnyList.populateItemUpdates`: copies `name` (trimmed), `checked`, `notes`
onto the body only when the runtime value has the expected type. -/
def populateItemUpdates (item : ItemBody) (updates : Option ItemUpdates) : ItemBody :=
  match updates with
  | none => item
  | some u =>
    let item1 :=
      match u.name with
      | some (JSValue.str s) => { item with name := some (JSValue.str s.trim) }
      | _ => item
    let item2 :=
      match u.checked with
      | some (JSValue.boolean b) => { item1 with checked := some (JSValue.boolean b) }
      | _ => item1
    match u.notes with
    | some (JSValue.str s) => { item2 with notes := some (JSValue.str s) }
    | _ => item2

/-- Body built by `AnyList.addItem` before posting to `/add`. -/
def addItemBody (st : AnyListState) (itemName : String) (updates : Option ItemUpdates)
    (listName : Option String) : ItemBody :=
  populateItemUpdates
    { name := some (JSValue.str itemName.trim),
      list := some (JSValue.str (getListName st listName)),
      checked := some (JSValue.boolean false) }
    updates

/-- Body built by `AnyList.updateItem` before posting to `/update`. -/
def updateItemBody (st : AnyListState) (itemId : String) (updates : ItemUpdates)
    (listName : Option String) : ItemBody :=
  populateItemUpdates
    { id := some (JSValue.str itemId),
      list := some (JSValue.str (getListName st listName)) }
    (some updates)

/-- `AnyList.addItem`: POST `/add`; success iff status 200 or 304, other
statuses raise SERVER_ERROR with the code, a thrown transport error raises
NETWORK_ERROR wrapping it; an `AnyListError` from address resolution is
rethrown as-is by the catch. -/
def addItem (st : AnyListState) (itemName : String) (updates : Option ItemUpdates)
    (listName : Option String) (http : ItemBody → HttpOutcome Unit) :
    Except AnyListError Int :=
  let body := addItemBody st itemName updates listName
  match getServerUrl st "add" with
  | .error e => .error e
  | .ok _url =>
    match http body with
    | .response code _ =>
      if code != 200 && code != 304 then
        .error { message := "Failed to add item. Received error code " ++ toString code,
                 type := .SERVER_ERROR, code := some code }
      else
        .ok code
    | .thrown err =>
      .error { message := "Network error while adding item",
               type := .NETWORK_ERROR, originalError := some err }

/-- `AnyList.removeItemByName`: POST `/remove` with `{name, list}`; same
status policy as `addItem`. -/
def removeItemByName (st : AnyListState) (itemName : String) (listName : Option String)
    (http : ItemBody → HttpOutcome Unit) : Except AnyListError Int :=
  let body : ItemBody :=
    { name := some (JSValue.str itemName.trim),
      list := some (JSValue.str (getListName st listName)) }
  match getServerUrl st "remove" with
  | .error e => .error e
  | .ok _url =>
    match http body with
    | .response code _ =>
      if code != 200 && code != 304 then
        .error { message := "Failed to remove item. Received error code " ++ toString code,
                 type := .SERVER_ERROR, code := some code }
      else
        .ok code
    | .thrown err =>
      .error { message := "Network error while removing item",
               type := .NETWORK_ERROR, originalError := some err }

/-- `AnyList.removeItemById`: POST `/remove` with `{id, list}`; same status
policy as `addItem`. -/
def removeItemById (st : AnyListState) (itemId : String) (listName : Option String)
    (http : ItemBody → HttpOutcome Unit) : Except AnyListError Int :=
  let body : ItemBody :=
    { id := some (JSValue.str itemId),
      list := some (JSValue.str (getListName st listName)) }
  match getServerUrl st "remove" with
  | .error e => .error e
  | .ok _url =>
    match http body with
    | .response code _ =>
      if code != 200 && code != 304 then
        .error { message := "Failed to remove item. Received error code " ++ toString code,
                 type := .SERVER_ERROR, code := some code }
      else
        .ok code
    | .thrown err =>
      .error { message := "Network error while removing item",
               type := .NETWORK_ERROR, originalError := some err }

/-- `AnyList.updateItem`: POST `/update`; success is status 200 only. -/
def updateItem (st : AnyListState) (itemId : String) (updates : ItemUpdates)
    (listName : Option String) (http : ItemBody → HttpOutcome Unit) :
    Except AnyListError Int :=
  let body := updateItemBody st itemId updates listName
  match getServerUrl st "update" with
  | .error e => .error e
  | .ok _url =>
    match http body with
    | .response code _ =>
      if code != 200 then
        .error { message := "Failed to update item. Received error code " ++ toString code,
                 type := .SERVER_ERROR, code := some code }
      else
        .ok code
    | .thrown err =>
      .error { message := "Network error while updating item",
               type := .NETWORK_ERROR, originalError := some err }

/-- `AnyList.checkItem`: POST `/check` with `{name, list, checked}`; success
iff status 200 or 304. -/
def checkItem (st : AnyListState) (itemName : String) (listName : Option String)
    (checked : Bool) (http : ItemBody → HttpOutcome Unit) : Except AnyListError Int :=
  let body : ItemBody :=
    { name := some (JSValue.str itemName.trim),
      list := some (JSValue.str (getListName st listName)),
      checked := some (JSValue.boolean checked) }
  match getServerUrl st "check" with
  | .error e => .error e
  | .ok _url =>
    match http body with
    | .response code _ =>
      if code != 200 && code != 304 then
        .error { message := "Failed to update item status. Received error code " ++ toString code,
                 type := .SERVER_ERROR, code := some code }
      else
        .ok code
    | .thrown err =>
      .error { message := "Network error while checking item",
               type := .NETWORK_ERROR, originalError := some err }

/-- `AnyListItem` interface. -/
structure AnyListItem where
  id : String
  name : String
  checked : Bool
  notes : Option String := none
  list : Option String := none
  deriving DecidableEq, Repr

/-- `AnyList.getDetailedItems`: GET `/items` with the optional `list` query
parameter; a 200 response yields `[200, response.data.items || []]`; a
response with any other status throws SERVER_ERROR (rethrown by the catch
since it is an `AnyListError`); a thrown transport error yields
`[error.response?.status || 500, []]`.  The transport is consulted with the
query parameter the source computes (`{ list } if truthy else undefined`). -/
def getDetailedItems (st : AnyListState) (listName : Option String)
    (http : Option String → HttpOutcome (Option (List AnyListItem))) :
    Except AnyListError (Int × List AnyListItem) :=
  let params : Option String :=
    if getListName st listName ≠ "" then some (getListName st listName) else none
  match getServerUrl st "items" with
  | .error e => .error e
  | .ok _url =>
    match http params with
    | .response code data =>
      if code = 200 then
        .ok (code, data.getD [])
      else
        .error { message := "Failed to get items. Received error code " ++ toString code,
                 type := .SERVER_ERROR, code := some code }
    | .thrown err =>
      .ok (jsOrInt err.responseStatus 500, [])

/-- `AnyList.getItems`: unchecked item names via `getDetailedItems`. -/
def getItems (st : AnyListState) (listName : Option String)
    (http : Option String → HttpOutcome (Option (List AnyListItem))) :
    Except AnyListError (Int × List String) :=
  match getDetailedItems st listName http with
  | .error e => .error e
  | .ok (code, items) =>
    if code = 200 then
      .ok (code, (items.filter (fun item => !item.checked)).map (fun item => item.name))
    else
      .ok (code, [])

/-- `AnyList.getAllItems`: unchecked and checked item names via `getDetailedItems`. -/
def getAllItems (st : AnyListState) (listName : Option String)
    (http : Option String → HttpOutcome (Option (List AnyListItem))) :
    Except AnyListError (Int × (List String × List String)) :=
  match getDetailedItems st listName http with
  | .error e => .error e
  | .ok (code, items) =>
    if code = 200 then
      .ok (code,
        ((items.filter (fun item => !item.checked)).map (fun item => item.name),
         (items.filter (fun item => item.checked)).map (fun item => item.name)))
    else
      .ok (code, ([], []))

/-- `AnyList.getLists`: GET `/lists`; same degrade-on-thrown-error policy as
`getDetailedItems`. -/
def getLists (st : AnyListState) (http : HttpOutcome (Option (List String))) :
    Except AnyListError (Int × List String) :=
  match getServerUrl st "lists" with
  | .error e => .error e
  | .ok _url =>
    match http with
    | .response code data =>
      if code = 200 then
        .ok (code, data.getD [])
      else
        .error { message := "Failed to get lists. Received error code " ++ toString code,
                 type := .SERVER_ERROR, code := some code }
    | .thrown err =>
      .ok (jsOrInt err.responseStatus 500, [])

/-! ### Server process manager (`AnyListServer`, `src/lib/server.ts`) -/

/-- Events emitted by `AnyListServer` (`started`, `stopped`, `error`, `output`). -/
inductive ServerEvent where
  | started
  | stopped (code : Option Int)
  | errored (e : AnyListError)
  | output (line : String)
  deriving DecidableEq, Repr

/-- External facts `start()` depends on: whether the binary file exists,
whether it is already executable, whether `chmod` succeeds in making it
executable, and the pid of the spawned child. -/
structure SpawnEnv where
  binaryExists : Bool
  alreadyExecutable : Bool
  chmodSucceeds : Bool
  newPid : Nat
  deriving DecidableEq, Repr

/-- `AnyListServer.ensureExecutablePermissions`: done if the executable bit is
set; otherwise `chmod` and re-verify, raising BINARY_ERROR when the bit is
still missing. -/
def ensureExecutablePermissions (env : SpawnEnv) : Except AnyListError Unit :=
  if env.alreadyExecutable then
    .ok ()
  else if env.chmodSucceeds then
    .ok ()
  else
    .error { message := "Failed to fix server binary permissions", type := .BINARY_ERROR }

/-- `AnyListServer.start`: raises BINARY_ERROR if the binary does not exist or
cannot be made executable, else spawns the process, sets `isRunning`, and
emits `started`. -/
def start (st : AnyListServerState) (env : SpawnEnv) :
    Except AnyListError (AnyListServerState × List ServerEvent) :=
  if !env.binaryExists then
    .error { message := "Failed to locate server binary", type := .BINARY_ERROR }
  else
    match ensureExecutablePermissions env with
    | .error e => .error e
    | .ok _ =>
      .ok ({ st with process := some env.newPid, isRunning := true }, [ServerEvent.started])

/-- The `exit` handler registered by `start`: clears `isRunning` and the
process handle, emits an `error` event (BINARY_ERROR carrying the code) when
the exit code is a non-null positive number, then emits `stopped` with the
observed code. -/
def handleProcessExit (st : AnyListServerState) (code : Option Int) :
    AnyListServerState × List ServerEvent :=
  let st1 := { st with isRunning := false, process := none }
  let errorEvents : List ServerEvent :=
    match code with
    | some c =>
      if c > 0 then
        [ServerEvent.errored
          { message := "Binary server exited with error code: " ++ toString c,
            type := .BINARY_ERROR, code := some c }]
      else []
    | none => []
  (st1, errorEvents ++ [ServerEvent.stopped code])

/-- How the supervised process reacts to `stop`'s termination signal: it
either exits before the timeout (with some exit code), ignores the signal
until the force-kill timeout fires, or surfaces a process-level error. -/
inductive StopBehavior where
  | exitsInTime (exitCode : Option Int)
  | timesOut
  | errors (err : ExternalError)
  deriving DecidableEq, Repr

/-- `AnyListServer.stop`: resolves immediately when no process is running;
otherwise signals the process and races its exit against the timeout — a
clean exit resolves (the exit handler having cleared the state), the timeout
path force-kills and rejects with BINARY_ERROR, a process error rejects with
BINARY_ERROR wrapping it. -/
def stop (st : AnyListServerState) (behavior : StopBehavior) :
    Except AnyListError AnyListServerState :=
  if st.process.isNone || !st.isRunning then
    .ok st
  else
    match behavior with
    | .exitsInTime exitCode => .ok (handleProcessExit st exitCode).1
    | .timesOut =>
      .error { message := "Server process had to be force killed", type := .BINARY_ERROR }
    | .errors err =>
      .error { message := "Error stopping server", type := .BINARY_ERROR,
               originalError := some err }

/-- `AnyListServer.restart`: when running, `await this.stop()` (whose
rejection propagates out of `restart`), then a fixed settle delay, then
`this.start()`. -/
def restart (st : AnyListServerState) (behavior : StopBehavior) (env : SpawnEnv) :
    Except AnyListError (AnyListServerState × List ServerEvent) :=
  if st.isRunning then
    match stop st behavior with
    | .error e => .error e
    | .ok st1 => start st1 env
  else
    start st env

/-- `AnyListServer.validateConfig`: requires (JS-truthy) binary path, email,
password, credentials-file path and port, raising VALIDATION_ERROR naming the
first missing field. -/
def validateServerConfig (config : ServerConfig) : Except AnyListError Unit :=
  if config.binary = "" then
    .error { message := "Server binary path is required", type := .VALIDATION_ERROR }
  else if config.email = "" then
    .error { message := "Email is required", type := .VALIDATION_ERROR }
  else if config.password = "" then
    .error { message := "Password is required", type := .VALIDATION_ERROR }
  else if config.credentialsFile = "" then
    .error { message := "Credentials file path is required", type := .VALIDATION_ERROR }
  else if config.port = "" then
    .error { message := "Port is required", type := .VALIDATION_ERROR }
  else
    .ok ()

/-! ### Credential manager (`AuthManager`, `src/lib/auth.ts`) -/

/-- A character admissible in the email regex classes `[^\s@]`. -/
def emailChar (c : Char) : Bool :=
  !c.isWhitespace && c ≠ '@'

/-- Whether a character list contains a `'.'` that is neither its first nor
its last element (the `[^\s@]+\.[^\s@]+` decomposition of the domain). -/
def dotNotLast : List Char → Bool
  | [] => false
  | c :: rest => (c = '.' && !rest.isEmpty) || dotNotLast rest

/-- Domain part of the email regex: nonempty, and splittable as
`[^\s@]+ '.' [^\s@]+`. -/
def domainOk (l : List Char) : Bool :=
  match l with
  | [] => false
  | _ :: rest => dotNotLast rest

/-- `AuthManager.validateEmail`: the regex `^[^\s@]+@[^\s@]+\.[^\s@]+$`. -/
def validateEmail (email : String) : Bool :=
  match email.toList.splitOn '@' with
  | [loc, dom] =>
    !loc.isEmpty && loc.all emailChar && dom.all emailChar && domainOk dom
  | _ => false

/-- Result record of `AuthManager.validatePassword`. -/
structure PasswordValidation where
  isValid : Bool
  message : Option String := none
  deriving DecidableEq, Repr

/-- `AuthManager.validatePassword`: nonempty and at least 6 characters. -/
def validatePassword (password : String) : PasswordValidation :=
  if password = "" then
    { isValid := false, message := some "Password cannot be empty" }
  else if password.length < 6 then
    { isValid := false, message := some "Password must be at least 6 characters long" }
  else
    { isValid := true }

/-- The JSON object persisted in the credentials file, as parsed back:
each field may be absent. -/
structure StoredCredentials where
  email : Option String := none
  password : Option String := none
  serverAddress : Option String := none
  savedAt : Option String := none
  deriving DecidableEq, Repr

/-- Content of the credentials file: either valid JSON describing a record,
or text that `JSON.parse` rejects. -/
inductive CredFile where
  | json (r : StoredCredentials)
  | notJson
  deriving DecidableEq, Repr

/-- Argument to `saveCredentials` (`Omit<Credentials, 'savedAt'>`). -/
structure CredentialsInput where
  email : String
  password : String
  serverAddress : Option String := none
  deriving DecidableEq, Repr

/-- `AuthManager.saveCredentials`: validates the email format and the
password strength (VALIDATION_ERROR naming the failing rule), then overwrites
the credentials file with the record plus a `savedAt` timestamp
(`JSON.stringify` omits the absent `serverAddress`).  The result is the new
file content. -/
def saveCredentials (credentials : CredentialsInput) (now : String) :
    Except AnyListError (Option CredFile) :=
  if !validateEmail credentials.email then
    .error { message := "Invalid email format", type := .VALIDATION_ERROR }
  else
    let passwordValidation := validatePassword credentials.password
    if !passwordValidation.isValid then
      .error { message := passwordValidation.message.getD "Invalid password",
               type := .VALIDATION_ERROR }
    else
      .ok (some (CredFile.json
        { email := some credentials.email,
          password := some credentials.password,
          serverAddress := credentials.serverAddress,
          savedAt := some now }))

/-- `AuthManager.loadCredentials`: `null` when the file does not exist;
AUTH_ERROR when the content is not parseable JSON or when the parsed record
has a falsy `email` or `password`; otherwise the parsed record. -/
def loadCredentials (file : Option CredFile) :
    Except AnyListError (Option StoredCredentials) :=
  match file with
  | none => .ok none
  | some CredFile.notJson =>
    .error { message := "Corrupted credentials file: invalid JSON", type := .AUTH_ERROR }
  | some (CredFile.json r) =>
    if !optStrTruthy r.email || !optStrTruthy r.password then
      .error { message := "Corrupted credentials file: missing required fields",
               type := .AUTH_ERROR }
    else
      .ok (some r)

/-! ### Auxiliary definitions for stating the claims -/

/-- Modelled from the spec: list-name resolution with nullish-coalescing
semantics, `explicit argument ?? configured default ?? ""` (an explicitly
supplied empty string is used as given).  For comparison with `getListName`,
which the source implements with `||`. -/
def getListNameNullish (st : AnyListState) (listName : Option String) : String :=
  listName.getD (st.config.defaultList.getD "")

/-- The write-path status policy: a 200 or 304 response yields that status;
any other response status yields a SERVER_ERROR carrying it; a thrown
transport error with no attached HTTP response yields a NETWORK_ERROR
wrapping it. -/
def writeStatusPolicy (op : (ItemBody → HttpOutcome Unit) → Except AnyListError Int) : Prop :=
  (∀ code : Int, code = 200 ∨ code = 304 →
    op (fun _ => HttpOutcome.response code ()) = .ok code) ∧
  (∀ code : Int, code ≠ 200 → code ≠ 304 →
    ∃ e, op (fun _ => HttpOutcome.response code ()) = .error e ∧
      e.type = .SERVER_ERROR ∧ e.code = some code) ∧
  (∀ err : ExternalError, err.responseStatus = none →
    ∃ e, op (fun _ => HttpOutcome.thrown err) = .error e ∧
      e.type = .NETWORK_ERROR ∧ e.originalError = some err)

/-! ### A small object heap, to express the aliasing behavior of
`getConfig` / `updateConfig` (both classes return/install fresh objects). -/

/-- A heap of JavaScript objects of one shape: a list of objects addressed by
index. -/
structure ObjHeap (α : Type) where
  objs : List α

/-- Allocate a fresh object; returns the new heap and the new reference. -/
def ObjHeap.alloc {α : Type} (h : ObjHeap α) (v : α) : ObjHeap α × Nat :=
  ({ objs := h.objs ++ [v] }, h.objs.length)

/-- Dereference. -/
def ObjHeap.get {α : Type} (h : ObjHeap α) (r : Nat) : Option α :=
  h.objs[r]?

/-- Mutate the object behind a reference (a caller writing a field of the
object returned by `getConfig`). -/
def ObjHeap.put {α : Type} (h : ObjHeap α) (r : Nat) (v : α) : ObjHeap α :=
  { objs := h.objs.set r v }

/-- A `Partial<AnyListConfig>`: outer `some` = key present (possibly with the
value `undefined`, which a spread still copies). -/
structure PartialAnyListConfig where
  serverAddress : Option (Option String) := none
  email : Option (Option String) := none
  password : Option (Option String) := none
  serverBinary : Option (Option String) := none
  defaultList : Option (Option String) := none
  refreshInterval : Option (Option Int) := none
  deriving DecidableEq, Repr

/-- `{ ...this.config, ...newConfig }` for the client config: fields present
in `newConfig` override, all other fields are retained. -/
def mergeAnyListConfig (config : AnyListConfig) (newConfig : PartialAnyListConfig) :
    AnyListConfig :=
  { serverAddress := newConfig.serverAddress.getD config.serverAddress,
    email := newConfig.email.getD config.email,
    password := newConfig.password.getD config.password,
    serverBinary := newConfig.serverBinary.getD config.serverBinary,
    defaultList := newConfig.defaultList.getD config.defaultList,
    refreshInterval := newConfig.refreshInterval.getD config.refreshInterval }

/-- A `Partial<ServerConfig>`. -/
structure PartialServerConfig where
  binary : Option String := none
  port : Option String := none
  email : Option String := none
  password : Option String := none
  credentialsFile : Option String := none
  ipFilter : Option (Option String) := none
  deriving DecidableEq, Repr

/-- `{ ...this.config, ...newConfig }` for the server config. -/
def mergeServerConfig (config : ServerConfig) (newConfig : PartialServerConfig) :
    ServerConfig :=
  { binary := newConfig.binary.getD config.binary,
    port := newConfig.port.getD config.port,
    email := newConfig.email.getD config.email,
    password := newConfig.password.getD config.password,
    credentialsFile := newConfig.credentialsFile.getD config.credentialsFile,
    ipFilter := newConfig.ipFilter.getD config.ipFilter }

/-- `AnyList.getConfig` in heap form: `return { ...this.config }` allocates a
fresh shallow copy and hands the caller its reference. -/
def AnyList.getConfigHeap (h : ObjHeap AnyListConfig) (configRef : Nat) :
    ObjHeap AnyListConfig × Nat :=
  h.alloc ((h.get configRef).getD {})

/-- `AnyList.updateConfig` in heap form: `this.config = { ...this.config,
...newConfig }` allocates the merged object and repoints the instance's
config reference at it. -/
def AnyList.updateConfigHeap (h : ObjHeap AnyListConfig) (configRef : Nat)
    (newConfig : PartialAnyListConfig) : ObjHeap AnyListConfig × Nat :=
  h.alloc (mergeAnyListConfig ((h.get configRef).getD {}) newConfig)

/-- `AnyListServer.getConfig` in heap form. -/
def AnyListServer.getConfigHeap (h : ObjHeap ServerConfig) (configRef : Nat) :
    ObjHeap ServerConfig × Nat :=
  h.alloc ((h.get configRef).getD
    { binary := "", port := "", email := "", password := "", credentialsFile := "" })

/-- `AnyListServer.updateConfig` in heap form. -/
def AnyListServer.updateConfigHeap (h : ObjHeap ServerConfig) (configRef : Nat)
    (newConfig : PartialServerConfig) : ObjHeap ServerConfig × Nat :=
  h.alloc (mergeServerConfig ((h.get configRef).getD
    { binary := "", port := "", email := "", password := "", credentialsFile := "" }) newConfig)

/-! ## Shared lemmas -/

lemma getServerUrl_ok {st : AnyListState} {address : String}
    (h : getServerAddress st = .ok address) (endpoint : String) :
    getServerUrl st endpoint = .ok (address ++ "/" ++ endpoint) := by
  simp [getServerUrl, h, Except.map]

lemma populateItemUpdates_name_proj (item : ItemBody) (u : ItemUpdates) :
    (populateItemUpdates item (some u)).name =
      match u.name with
      | some (JSValue.str s) => some (JSValue.str s.trim)
      | _ => item.name := by
  rcases u with ⟨un, uc, uno⟩
  rcases un with _ | (s | b | n | _ | _) <;>
    rcases uc with _ | (s2 | b2 | n2 | _ | _) <;>
      rcases uno with _ | (s3 | b3 | n3 | _ | _) <;> rfl

lemma populateItemUpdates_checked_proj (item : ItemBody) (u : ItemUpdates) :
    (populateItemUpdates item (some u)).checked =
      match u.checked with
      | some (JSValue.boolean b) => some (JSValue.boolean b)
      | _ => item.checked := by
  rcases u with ⟨un, uc, uno⟩
  rcases un with _ | (s | b | n | _ | _) <;>
    rcases uc with _ | (s2 | b2 | n2 | _ | _) <;>
      rcases uno with _ | (s3 | b3 | n3 | _ | _) <;> rfl

lemma populateItemUpdates_notes_proj (item : ItemBody) (u : ItemUpdates) :
    (populateItemUpdates item (some u)).notes =
      match u.notes with
      | some (JSValue.str s) => some (JSValue.str s)
      | _ => item.notes := by
  rcases u with ⟨un, uc, uno⟩
  rcases un with _ | (s | b | n | _ | _) <;>
    rcases uc with _ | (s2 | b2 | n2 | _ | _) <;>
      rcases uno with _ | (s3 | b3 | n3 | _ | _) <;> rfl

lemma ObjHeap.get_alloc_old {α : Type} (h : ObjHeap α) (v : α) {r : Nat}
    (hr : r < h.objs.length) : (h.alloc v).1.get r = h.get r := by
  simp [ObjHeap.alloc, ObjHeap.get, List.getElem?_append, hr]

lemma ObjHeap.get_alloc_new {α : Type} (h : ObjHeap α) (v : α) :
    (h.alloc v).1.get (h.alloc v).2 = some v := by
  simp [ObjHeap.alloc, ObjHeap.get]

lemma ObjHeap.alloc_ref_fresh {α : Type} (h : ObjHeap α) (v : α) {r : Nat}
    (hr : r < h.objs.length) : (h.alloc v).2 ≠ r := by
  simp only [ObjHeap.alloc]
  omega

lemma ObjHeap.get_put_ne {α : Type} (h : ObjHeap α) {r r' : Nat} (v : α)
    (hne : r ≠ r') : (h.put r v).get r' = h.get r' := by
  simp [ObjHeap.put, ObjHeap.get, List.getElem?_set_ne hne]

/-! ## Claims -/

/-- Claim C1: for `addItem`, `removeItemByName`, `removeItemById` and
`checkItem` (with the server address resolvable), the operation returns the
HTTP status iff the response status is 200 or 304; any other response status
raises SERVER_ERROR carrying that status; a transport failure with no HTTP
response raises NETWORK_ERROR wrapping the underlying cause. -/
theorem addItem_removeItem_checkItem_status_policy
    (st : AnyListState) (address : String) (h : getServerAddress st = .ok address)
    (itemName itemId : String) (updates : Option ItemUpdates)
    (listName : Option String) (checked : Bool) :
    writeStatusPolicy (addItem st itemName updates listName) ∧
    writeStatusPolicy (removeItemByName st itemName listName) ∧
    writeStatusPolicy (removeItemById st itemId listName) ∧
    writeStatusPolicy (checkItem st itemName listName checked) := by
  refine ⟨⟨?_, ?_, ?_⟩, ⟨?_, ?_, ?_⟩, ⟨?_, ?_, ?_⟩, ⟨?_, ?_, ?_⟩⟩ <;>
    simp only [addItem, removeItemByName, removeItemById, checkItem,
      getServerUrl_ok h]
  case _ =>
    rintro code (rfl | rfl) <;> rfl
  case _ =>
    intro code h200 h304
    refine ⟨{ message := "Failed to add item. Received error code " ++ toString code,
              type := .SERVER_ERROR, code := some code }, ?_, rfl, rfl⟩
    simp [h200, h304]
  case _ =>
    intro err _
    exact ⟨{ message := "Network error while adding item",
             type := .NETWORK_ERROR, originalError := some err }, rfl, rfl, rfl⟩
  case _ =>
    rintro code (rfl | rfl) <;> rfl
  case _ =>
    intro code h200 h304
    refine ⟨{ message := "Failed to remove item. Received error code " ++ toString code,
              type := .SERVER_ERROR, code := some code }, ?_, rfl, rfl⟩
    simp [h200, h304]
  case _ =>
    intro err _
    exact ⟨{ message := "Network error while removing item",
             type := .NETWORK_ERROR, originalError := some err }, rfl, rfl, rfl⟩
  case _ =>
    rintro code (rfl | rfl) <;> rfl
  case _ =>
    intro code h200 h304
    refine ⟨{ message := "Failed to remove item. Received error code " ++ toString code,
              type := .SERVER_ERROR, code := some code }, ?_, rfl, rfl⟩
    simp [h200, h304]
  case _ =>
    intro err _
    exact ⟨{ message := "Network error while removing item",
             type := .NETWORK_ERROR, originalError := some err }, rfl, rfl, rfl⟩
  case _ =>
    rintro code (rfl | rfl) <;> rfl
  case _ =>
    intro code h200 h304
    refine ⟨{ message := "Failed to update item status. Received error code " ++ toString code,
              type := .SERVER_ERROR, code := some code }, ?_, rfl, rfl⟩
    simp [h200, h304]
  case _ =>
    intro err _
    exact ⟨{ message := "Network error while checking item",
             type := .NETWORK_ERROR, originalError := some err }, rfl, rfl, rfl⟩

/-- Witness for C1 at a concrete configuration and concrete outcomes. -/
theorem addItem_removeItem_checkItem_status_policy_witness :
    addItem { config := { serverAddress := some "http://127.0.0.1:28597" } }
      "Milk" none none (fun _ => HttpOutcome.response 200 ()) = .ok 200 :=
  (addItem_removeItem_checkItem_status_policy
    { config := { serverAddress := some "http://127.0.0.1:28597" } }
    "http://127.0.0.1:28597" rfl "Milk" "id1" none none true).1.1 200 (Or.inl rfl)

/-- Claim C6: on every process exit the manager clears the handle (so
`available` is false), emits `stopped` with the observed code, and emits a
BINARY error event carrying the code iff the code is a positive non-null
number. -/
theorem handleProcessExit_events (st : AnyListServerState) (code : Option Int) :
    available (handleProcessExit st code).1 = false ∧
    (handleProcessExit st code).1.process = none ∧
    ServerEvent.stopped code ∈ (handleProcessExit st code).2 ∧
    ((∃ e, ServerEvent.errored e ∈ (handleProcessExit st code).2 ∧
        e.type = .BINARY_ERROR ∧ e.code = code) ↔
      ∃ c, code = some c ∧ 0 < c) := by
  refine ⟨by simp [handleProcessExit, available], by simp [handleProcessExit], ?_, ?_⟩
  · simp [handleProcessExit]
  · constructor
    · rintro ⟨e, he, -, hcode⟩
      rcases code with _ | c
      · simp [handleProcessExit] at he
      · by_cases hc : 0 < c
        · exact ⟨c, rfl, hc⟩
        · simp [handleProcessExit, hc] at he
    · rintro ⟨c, rfl, hc⟩
      refine ⟨{ message := "Binary server exited with error code: " ++ toString c,
                type := .BINARY_ERROR, code := some c }, ?_, rfl, rfl⟩
      simp [handleProcessExit, hc]

/-- Counterexample to claim C2 as stated: from a running state whose process
ignores the termination signal (`stop`'s force-kill rejection), `restart`
rejects with the stop error — even though `start` on the same configuration
would succeed — so `start()` does not proceed. -/
theorem restart_aborts_on_stop_failure_counterexample :
    restart
      { config := { binary := "bin", port := "28597", email := "e@x.io",
                    password := "p", credentialsFile := "f" },
        process := some 1, isRunning := true }
      StopBehavior.timesOut
      { binaryExists := true, alreadyExecutable := true, chmodSucceeds := true, newPid := 2 } =
      .error { message := "Server process had to be force killed", type := .BINARY_ERROR } ∧
    start
      { config := { binary := "bin", port := "28597", email := "e@x.io",
                    password := "p", credentialsFile := "f" },
        process := some 1, isRunning := true }
      { binaryExists := true, alreadyExecutable := true, chmodSucceeds := true, newPid := 2 } =
      .ok ({ config := { binary := "bin", port := "28597", email := "e@x.io",
                         password := "p", credentialsFile := "f" },
             process := some 2, isRunning := true }, [ServerEvent.started]) :=
  ⟨rfl, rfl⟩

/-- Claim C2 (amended): when the process is running, `restart` performs
`stop`, then the settle delay, then `start`; but when `stop` rejects (its
force-kill/timeout path), `restart` rejects with that very error and `start`
is not performed. -/
theorem restart_stop_failure_propagates
    (st : AnyListServerState) (behavior : StopBehavior) (env : SpawnEnv) :
    (st.isRunning = true → ∀ e, stop st behavior = .error e →
      restart st behavior env = .error e) ∧
    (st.isRunning = true → ∀ st1, stop st behavior = .ok st1 →
      restart st behavior env = start st1 env) ∧
    (st.isRunning = false → restart st behavior env = start st env) := by
  refine ⟨?_, ?_, ?_⟩
  · intro hrun e hstop
    simp [restart, hrun, hstop]
  · intro hrun st1 hstop
    simp [restart, hrun, hstop]
  · intro hrun
    simp [restart, hrun]

/-- Witness for the amended C2 at a concrete running state. -/
theorem restart_stop_failure_propagates_witness :
    restart
      { config := { binary := "bin", port := "28597", email := "e@x.io",
                    password := "p", credentialsFile := "f" },
        process := some 7, isRunning := true }
      StopBehavior.timesOut
      { binaryExists := true, alreadyExecutable := false, chmodSucceeds := true, newPid := 8 } =
      .error { message := "Server process had to be force killed", type := .BINARY_ERROR } :=
  (restart_stop_failure_propagates
    { config := { binary := "bin", port := "28597", email := "e@x.io",
                  password := "p", credentialsFile := "f" },
      process := some 7, isRunning := true }
    StopBehavior.timesOut
    { binaryExists := true, alreadyExecutable := false, chmodSucceeds := true, newPid := 8 }).1
    rfl _ rfl

/-- Counterexample to claim C3 as stated: when the transport delivers a
response object with a non-200 status, `getDetailedItems` (and `getLists`)
raises a SERVER error carrying the status instead of returning the status
with an empty list. -/
theorem getDetailedItems_nonOk_response_throws_counterexample :
    getDetailedItems { config := { serverAddress := some "http://127.0.0.1:28597" } } none
      (fun _ => HttpOutcome.response 404 none) =
      .error { message := "Failed to get items. Received error code 404",
               type := .SERVER_ERROR, code := some 404 } ∧
    getLists { config := { serverAddress := some "http://127.0.0.1:28597" } }
      (HttpOutcome.response 404 none) =
      .error { message := "Failed to get lists. Received error code 404",
               type := .SERVER_ERROR, code := some 404 } :=
  ⟨rfl, rfl⟩

/-- Claim C3 (amended): when the service's non-200 answer arrives as a thrown
transport error carrying the observed status, `getDetailedItems` and
`getLists` return that status with an empty list without raising; on a
transport failure with no response they return 500 with an empty list; but a
response object bearing a non-200 status makes them raise SERVER_ERROR
carrying that status. -/
theorem read_path_degrade_policy
    (st : AnyListState) (address : String) (h : getServerAddress st = .ok address)
    (listName : Option String) :
    (∀ tag : Nat, ∀ s : Int, s ≠ 0 →
      getDetailedItems st listName (fun _ => HttpOutcome.thrown ⟨tag, some s⟩) = .ok (s, []) ∧
      getLists st (HttpOutcome.thrown ⟨tag, some s⟩) = .ok (s, [])) ∧
    (∀ tag : Nat,
      getDetailedItems st listName (fun _ => HttpOutcome.thrown ⟨tag, none⟩) = .ok (500, []) ∧
      getLists st (HttpOutcome.thrown ⟨tag, none⟩) = .ok (500, [])) ∧
    (∀ code data, code ≠ 200 →
      ∃ e, getDetailedItems st listName (fun _ => HttpOutcome.response code data) = .error e ∧
        e.type = .SERVER_ERROR ∧ e.code = some code) ∧
    (∀ code data, code ≠ 200 →
      ∃ e, getLists st (HttpOutcome.response code data) = .error e ∧
        e.type = .SERVER_ERROR ∧ e.code = some code) := by
  refine ⟨?_, ?_, ?_, ?_⟩
  · intro tag s hs
    constructor <;> simp [getDetailedItems, getLists, getServerUrl_ok h, jsOrInt, hs]
  · intro tag
    constructor <;> simp [getDetailedItems, getLists, getServerUrl_ok h, jsOrInt]
  · intro code data hcode
    refine ⟨{ message := "Failed to get items. Received error code " ++ toString code,
              type := .SERVER_ERROR, code := some code }, ?_, rfl, rfl⟩
    simp [getDetailedItems, getServerUrl_ok h, hcode]
  · intro code data hcode
    refine ⟨{ message := "Failed to get lists. Received error code " ++ toString code,
              type := .SERVER_ERROR, code := some code }, ?_, rfl, rfl⟩
    simp [getLists, getServerUrl_ok h, hcode]

/-- Witness for the amended C3 at a concrete configuration. -/
theorem read_path_degrade_policy_witness :
    getDetailedItems { config := { serverAddress := some "http://127.0.0.1:28597" } } none
      (fun _ => HttpOutcome.thrown ⟨3, some 503⟩) = .ok (503, []) ∧
    getLists { config := { serverAddress := some "http://127.0.0.1:28597" } }
      (HttpOutcome.thrown ⟨3, some 503⟩) = .ok (503, []) :=
  (read_path_degrade_policy
    { config := { serverAddress := some "http://127.0.0.1:28597" } }
    "http://127.0.0.1:28597" rfl none).1 3 503 (by decide)

/-- Counterexample to claim C4 as stated: with a configured (present but
empty) `serverAddress` and a bound available manager whose configured port is
"9999", the resolved address is the fixed loopback `http://127.0.0.1:28597` —
neither the configured address verbatim nor the manager's port. -/
theorem getServerAddress_fixed_port_counterexample :
    getServerAddress
      { config := { serverAddress := some "" },
        binaryServer := some
          { config := { binary := "bin", port := "9999", email := "e", password := "p",
                        credentialsFile := "f" },
            process := some 1, isRunning := true } } =
      .ok "http://127.0.0.1:28597" ∧
    ("http://127.0.0.1:28597" : String) ≠ "" ∧
    ("http://127.0.0.1:28597" : String) ≠ "http://127.0.0.1:9999" := by
  exact ⟨rfl, by decide, by decide⟩

/-- Claim C4 (amended): the base address resolves at call time to the
configured `serverAddress` when it is present and non-empty; otherwise, when
a bound manager reports itself available, to the fixed loopback address
`http://127.0.0.1:28597` (the manager's configured port is not consulted);
otherwise every operation raises the SERVER "no server available" error
before the transport is consulted. -/
theorem getServerAddress_resolution (st : AnyListState) :
    (∀ a, st.config.serverAddress = some a → a ≠ "" → getServerAddress st = .ok a) ∧
    (optStrTruthy st.config.serverAddress = false →
      ∀ bs, st.binaryServer = some bs → available bs = true →
      getServerAddress st = .ok "http://127.0.0.1:28597") ∧
    (optStrTruthy st.config.serverAddress = false →
      (st.binaryServer.map available).getD false = false →
      getServerAddress st =
        .error { message := "Binary server is not running", type := .SERVER_ERROR }) ∧
    (∀ e, getServerAddress st = .error e →
      (∀ itemName updates listName http,
        addItem st itemName updates listName http = .error e) ∧
      (∀ itemName listName http, removeItemByName st itemName listName http = .error e) ∧
      (∀ itemId listName http, removeItemById st itemId listName http = .error e) ∧
      (∀ itemId updates listName http, updateItem st itemId updates listName http = .error e) ∧
      (∀ itemName listName checked http,
        checkItem st itemName listName checked http = .error e) ∧
      (∀ listName http, getDetailedItems st listName http = .error e) ∧
      (∀ listName http, getItems st listName http = .error e) ∧
      (∀ listName http, getAllItems st listName http = .error e) ∧
      (∀ http, getLists st http = .error e)) := by
  refine ⟨?_, ?_, ?_, ?_⟩
  · intro a ha hne
    simp [getServerAddress, optStrTruthy, ha, hne]
  · intro hfalse bs hbs hav
    simp [getServerAddress, hfalse, hbs, hav]
  · intro hfalse hnone
    simp [getServerAddress, hfalse, hnone]
  · intro e he
    have hurl : ∀ endpoint, getServerUrl st endpoint = .error e := by
      intro endpoint; simp [getServerUrl, he, Except.map]
    have hd : ∀ listName http, getDetailedItems st listName http = .error e := by
      intro listName http; simp [getDetailedItems, hurl]
    refine ⟨?_, ?_, ?_, ?_, ?_, hd, ?_, ?_, ?_⟩
    · intro itemName updates listName http; simp [addItem, hurl]
    · intro itemName listName http; simp [removeItemByName, hurl]
    · intro itemId listName http; simp [removeItemById, hurl]
    · intro itemId updates listName http; simp [updateItem, hurl]
    · intro itemName listName checked http; simp [checkItem, hurl]
    · intro listName http; simp [getItems, hd]
    · intro listName http; simp [getAllItems, hd]
    · intro http; simp [getLists, hurl]

/-- Witness for the amended C4 at concrete states. -/
theorem getServerAddress_resolution_witness :
    getServerAddress { config := { serverAddress := some "http://myhost:9000" } } =
      .ok "http://myhost:9000" ∧
    getServerAddress { config := {} } =
      .error { message := "Binary server is not running", type := .SERVER_ERROR } :=
  ⟨(getServerAddress_resolution { config := { serverAddress := some "http://myhost:9000" } }).1
      "http://myhost:9000" rfl (by decide),
   (getServerAddress_resolution { config := {} }).2.2.1 rfl rfl⟩

/-- Counterexample to claim C5 as stated: an explicitly supplied empty-string
list name is not used as given (`??` semantics) — the `||`-based resolution
falls through to the configured default. -/
theorem getListName_empty_string_counterexample :
    getListName { config := { defaultList := some "Shopping" } } (some "") = "Shopping" ∧
    getListNameNullish { config := { defaultList := some "Shopping" } } (some "") = "" ∧
    ("Shopping" : String) ≠ "" :=
  ⟨rfl, rfl, by decide⟩

/-- Claim C5 (amended): list-name resolution follows JavaScript `||`
semantics — the explicit argument when supplied and non-empty, otherwise the
configured default when present and non-empty, otherwise the empty string
(an explicitly supplied empty string falls through to the default); an empty
resolved name is still placed in the request body and the request proceeds
rather than being treated as an error. -/
theorem getListName_jsOr_semantics (st : AnyListState) (listName : Option String) :
    (∀ s, listName = some s → s ≠ "" → getListName st listName = s) ∧
    ((listName = none ∨ listName = some "") →
      ∀ d, st.config.defaultList = some d → d ≠ "" → getListName st listName = d) ∧
    ((listName = none ∨ listName = some "") →
      (st.config.defaultList = none ∨ st.config.defaultList = some "") →
      getListName st listName = "") ∧
    (getListName st listName = "" →
      (∀ itemName, (addItemBody st itemName none listName).list = some (JSValue.str "")) ∧
      (∀ address, getServerAddress st = .ok address → ∀ itemName,
        addItem st itemName none listName (fun _ => HttpOutcome.response 200 ()) =
          .ok 200)) := by
  refine ⟨?_, ?_, ?_, ?_⟩
  · rintro s rfl hs
    simp [getListName, jsOrStr, hs]
  · rintro (rfl | rfl) d hd hdne <;> simp [getListName, jsOrStr, hd, hdne]
  · rintro (rfl | rfl) (hd | hd) <;> simp [getListName, jsOrStr, hd]
  · intro hres
    constructor
    · intro itemName
      simp [addItemBody, populateItemUpdates, hres]
    · intro address ha itemName
      simp [addItem, getServerUrl_ok ha]

/-- Witness for the amended C5 at concrete inputs. -/
theorem getListName_jsOr_semantics_witness :
    getListName { config := { defaultList := some "Shopping" } } (some "Groceries") =
      "Groceries" :=
  (getListName_jsOr_semantics { config := { defaultList := some "Shopping" } }
    (some "Groceries")).1 "Groceries" rfl (by decide)

/-- Claim C7: for a credential record with a valid email and a password of at
least 6 characters, `saveCredentials` followed by `loadCredentials` returns
the same email, password and serverAddress plus the populated `savedAt`
timestamp. -/
theorem saveCredentials_loadCredentials_roundtrip
    (c : CredentialsInput) (now : String)
    (hEmail : validateEmail c.email = true)
    (hPassword : 6 ≤ c.password.length) :
    ∃ file, saveCredentials c now = .ok file ∧
      loadCredentials file = .ok (some
        { email := some c.email, password := some c.password,
          serverAddress := c.serverAddress, savedAt := some now }) := by
  have hpne : c.password ≠ "" := by
    intro hp
    rw [hp] at hPassword
    exact absurd hPassword (by decide)
  have hene : c.email ≠ "" := by
    intro hp
    rw [hp] at hEmail
    exact absurd hEmail (by decide)
  have hpv : validatePassword c.password = { isValid := true } := by
    simp [validatePassword, hpne, Nat.not_lt.mpr hPassword]
  refine ⟨some (CredFile.json
    { email := some c.email, password := some c.password,
      serverAddress := c.serverAddress, savedAt := some now }), ?_, ?_⟩
  · simp [saveCredentials, hEmail, hpv]
  · simp [loadCredentials, optStrTruthy, hene, hpne]

/-- Witness for C7 at a concrete credential record. -/
theorem saveCredentials_loadCredentials_roundtrip_witness :
    ∃ file,
      saveCredentials { email := "user@example.com", password := "hunter2" }
        "2024-01-01T00:00:00Z" = .ok file ∧
      loadCredentials file = .ok (some
        { email := some "user@example.com", password := some "hunter2",
          serverAddress := none, savedAt := some "2024-01-01T00:00:00Z" }) :=
  saveCredentials_loadCredentials_roundtrip
    { email := "user@example.com", password := "hunter2" } "2024-01-01T00:00:00Z"
    (by decide) (by decide)

/-- Claim C8: `loadCredentials` returns null exactly when the credentials
file does not exist; an existing file raises AUTH_ERROR when its content is
not parseable JSON, and also when the parsed record lacks the email field or
the password field. -/
theorem loadCredentials_error_policy :
    (∀ file, loadCredentials file = .ok none ↔ file = none) ∧
    (∃ e, loadCredentials (some CredFile.notJson) = .error e ∧ e.type = .AUTH_ERROR) ∧
    (∀ r : StoredCredentials, r.email = none ∨ r.password = none →
      ∃ e, loadCredentials (some (CredFile.json r)) = .error e ∧
        e.type = .AUTH_ERROR) := by
  refine ⟨?_,
    ⟨{ message := "Corrupted credentials file: invalid JSON", type := .AUTH_ERROR },
      rfl, rfl⟩, ?_⟩
  · intro file
    constructor
    · intro hf
      rcases file with _ | cf
      · rfl
      · rcases cf with r | _
        · rw [loadCredentials] at hf
          split at hf
          · exact absurd hf (by simp)
          · simp at hf
        · simp [loadCredentials] at hf
    · rintro rfl
      rfl
  · rintro r (he | hp)
    · refine ⟨{ message := "Corrupted credentials file: missing required fields",
                type := .AUTH_ERROR }, ?_, rfl⟩
      simp [loadCredentials, optStrTruthy, he]
    · refine ⟨{ message := "Corrupted credentials file: missing required fields",
                type := .AUTH_ERROR }, ?_, rfl⟩
      simp [loadCredentials, optStrTruthy, hp]

/-- Witness for C8 at a concrete record missing the email field. -/
theorem loadCredentials_error_policy_witness :
    ∃ e, loadCredentials (some (CredFile.json { password := some "hunter2" })) =
      .error e ∧ e.type = .AUTH_ERROR :=
  loadCredentials_error_policy.2.2 { password := some "hunter2" } (Or.inl rfl)

/-- Claim C9: in `addItem` and `updateItem`, an optional update field with a
wrong-typed runtime value is silently not applied to the request body —
`checked` is applied only when it is a boolean, `notes`/`name` only when they
are strings (so `updateItem`'s body contains them only then) — and a string
`name` update is trimmed and overrides the name otherwise placed in the
body. -/
theorem populateItemUpdates_type_guards :
    (∀ (item : ItemBody) (u : ItemUpdates),
      (∀ b, u.checked ≠ some (JSValue.boolean b)) →
      (populateItemUpdates item (some u)).checked = item.checked) ∧
    (∀ (item : ItemBody) (u : ItemUpdates),
      (∀ s, u.notes ≠ some (JSValue.str s)) →
      (populateItemUpdates item (some u)).notes = item.notes) ∧
    (∀ (item : ItemBody) (u : ItemUpdates),
      (∀ s, u.name ≠ some (JSValue.str s)) →
      (populateItemUpdates item (some u)).name = item.name) ∧
    (∀ (st : AnyListState) (itemId : String) (u : ItemUpdates) (listName : Option String),
      ((updateItemBody st itemId u listName).checked ≠ none ↔
        ∃ b, u.checked = some (JSValue.boolean b)) ∧
      ((updateItemBody st itemId u listName).notes ≠ none ↔
        ∃ s, u.notes = some (JSValue.str s))) ∧
    (∀ (st : AnyListState) (itemName : String) (u : ItemUpdates)
        (listName : Option String) (s : String),
      u.name = some (JSValue.str s) →
      (addItemBody st itemName (some u) listName).name = some (JSValue.str s.trim)) ∧
    (∀ (st : AnyListState) (itemName : String) (u : ItemUpdates) (listName : Option String),
      (∀ s, u.name ≠ some (JSValue.str s)) →
      (addItemBody st itemName (some u) listName).name =
        some (JSValue.str itemName.trim)) := by
  refine ⟨?_, ?_, ?_, ?_, ?_, ?_⟩
  · intro item u hu
    rw [populateItemUpdates_checked_proj]
    cases hc : u.checked with
    | none => rfl
    | some v =>
      cases v with
      | boolean b => exact absurd hc (hu b)
      | str s => rfl
      | num n => rfl
      | null => rfl
      | undef => rfl
  · intro item u hu
    rw [populateItemUpdates_notes_proj]
    cases hc : u.notes with
    | none => rfl
    | some v =>
      cases v with
      | str s => exact absurd hc (hu s)
      | boolean b => rfl
      | num n => rfl
      | null => rfl
      | undef => rfl
  · intro item u hu
    rw [populateItemUpdates_name_proj]
    cases hc : u.name with
    | none => rfl
    | some v =>
      cases v with
      | str s => exact absurd hc (hu s)
      | boolean b => rfl
      | num n => rfl
      | null => rfl
      | undef => rfl
  · intro st itemId u listName
    constructor
    · rw [updateItemBody, populateItemUpdates_checked_proj]
      cases hc : u.checked with
      | none => simp
      | some v =>
        cases v with
        | boolean b => simp
        | str s => simp
        | num n => simp
        | null => simp
        | undef => simp
    · rw [updateItemBody, populateItemUpdates_notes_proj]
      cases hc : u.notes with
      | none => simp
      | some v =>
        cases v with
        | str s => simp
        | boolean b => simp
        | num n => simp
        | null => simp
        | undef => simp
  · intro st itemName u listName s hs
    rw [addItemBody, populateItemUpdates_name_proj, hs]
  · intro st itemName u listName hu
    rw [addItemBody, populateItemUpdates_name_proj]
    cases hc : u.name with
    | none => rfl
    | some v =>
      cases v with
      | str s => exact absurd hc (hu s)
      | boolean b => rfl
      | num n => rfl
      | null => rfl
      | undef => rfl

/-- Witness for C9: a string-valued `checked` update is not applied. -/
theorem populateItemUpdates_type_guards_witness :
    (populateItemUpdates { name := some (JSValue.str "Milk") }
      (some { checked := some (JSValue.str "yes") })).checked =
      ({ name := some (JSValue.str "Milk") } : ItemBody).checked :=
  populateItemUpdates_type_guards.1 { name := some (JSValue.str "Milk") }
    { checked := some (JSValue.str "yes") } (by decide)

/-- Claim C10: `getConfig` (client and server manager) hands the caller a
fresh shallow copy, so mutating the returned object leaves the instance's
configuration unchanged; `updateConfig` installs the merge of the supplied
partial fields over the existing ones, leaving unsupplied fields
unchanged. -/
theorem getConfig_shallow_copy_updateConfig_merge :
    (∀ (h : ObjHeap AnyListConfig) (configRef : Nat), configRef < h.objs.length →
      (AnyList.getConfigHeap h configRef).2 ≠ configRef ∧
      (AnyList.getConfigHeap h configRef).1.get configRef = h.get configRef ∧
      (∀ v, ((AnyList.getConfigHeap h configRef).1.put
          (AnyList.getConfigHeap h configRef).2 v).get configRef = h.get configRef)) ∧
    (∀ (h : ObjHeap ServerConfig) (configRef : Nat), configRef < h.objs.length →
      (AnyListServer.getConfigHeap h configRef).2 ≠ configRef ∧
      (AnyListServer.getConfigHeap h configRef).1.get configRef = h.get configRef ∧
      (∀ v, ((AnyListServer.getConfigHeap h configRef).1.put
          (AnyListServer.getConfigHeap h configRef).2 v).get configRef = h.get configRef)) ∧
    (∀ (h : ObjHeap AnyListConfig) (configRef : Nat) (p : PartialAnyListConfig),
      (AnyList.updateConfigHeap h configRef p).1.get
          (AnyList.updateConfigHeap h configRef p).2 =
        some (mergeAnyListConfig ((h.get configRef).getD {}) p)) ∧
    (∀ (h : ObjHeap ServerConfig) (configRef : Nat) (p : PartialServerConfig),
      (AnyListServer.updateConfigHeap h configRef p).1.get
          (AnyListServer.updateConfigHeap h configRef p).2 =
        some (mergeServerConfig ((h.get configRef).getD
          { binary := "", port := "", email := "", password := "",
            credentialsFile := "" }) p)) ∧
    (∀ (config : AnyListConfig) (p : PartialAnyListConfig),
      (p.serverAddress = none →
        (mergeAnyListConfig config p).serverAddress = config.serverAddress) ∧
      (∀ v, p.serverAddress = some v → (mergeAnyListConfig config p).serverAddress = v) ∧
      (p.email = none → (mergeAnyListConfig config p).email = config.email) ∧
      (∀ v, p.email = some v → (mergeAnyListConfig config p).email = v) ∧
      (p.password = none → (mergeAnyListConfig config p).password = config.password) ∧
      (∀ v, p.password = some v → (mergeAnyListConfig config p).password = v) ∧
      (p.serverBinary = none →
        (mergeAnyListConfig config p).serverBinary = config.serverBinary) ∧
      (∀ v, p.serverBinary = some v → (mergeAnyListConfig config p).serverBinary = v) ∧
      (p.defaultList = none →
        (mergeAnyListConfig config p).defaultList = config.defaultList) ∧
      (∀ v, p.defaultList = some v → (mergeAnyListConfig config p).defaultList = v) ∧
      (p.refreshInterval = none →
        (mergeAnyListConfig config p).refreshInterval = config.refreshInterval) ∧
      (∀ v, p.refreshInterval = some v →
        (mergeAnyListConfig config p).refreshInterval = v)) ∧
    (∀ (config : ServerConfig) (p : PartialServerConfig),
      (p.binary = none → (mergeServerConfig config p).binary = config.binary) ∧
      (∀ v, p.binary = some v → (mergeServerConfig config p).binary = v) ∧
      (p.port = none → (mergeServerConfig config p).port = config.port) ∧
      (∀ v, p.port = some v → (mergeServerConfig config p).port = v) ∧
      (p.email = none → (mergeServerConfig config p).email = config.email) ∧
      (∀ v, p.email = some v → (mergeServerConfig config p).email = v) ∧
      (p.password = none → (mergeServerConfig config p).password = config.password) ∧
      (∀ v, p.password = some v → (mergeServerConfig config p).password = v) ∧
      (p.credentialsFile = none →
        (mergeServerConfig config p).credentialsFile = config.credentialsFile) ∧
      (∀ v, p.credentialsFile = some v → (mergeServerConfig config p).credentialsFile = v) ∧
      (p.ipFilter = none → (mergeServerConfig config p).ipFilter = config.ipFilter) ∧
      (∀ v, p.ipFilter = some v → (mergeServerConfig config p).ipFilter = v)) := by
  refine ⟨?_, ?_, ?_, ?_, ?_, ?_⟩
  · intro h configRef hlt
    refine ⟨ObjHeap.alloc_ref_fresh h _ hlt, ObjHeap.get_alloc_old h _ hlt, ?_⟩
    intro v
    rw [AnyList.getConfigHeap,
      ObjHeap.get_put_ne _ v (ObjHeap.alloc_ref_fresh h _ hlt)]
    exact ObjHeap.get_alloc_old h _ hlt
  · intro h configRef hlt
    refine ⟨ObjHeap.alloc_ref_fresh h _ hlt, ObjHeap.get_alloc_old h _ hlt, ?_⟩
    intro v
    rw [AnyListServer.getConfigHeap,
      ObjHeap.get_put_ne _ v (ObjHeap.alloc_ref_fresh h _ hlt)]
    exact ObjHeap.get_alloc_old h _ hlt
  · intro h configRef p
    exact ObjHeap.get_alloc_new h _
  · intro h configRef p
    exact ObjHeap.get_alloc_new h _
  · intro config p
    exact ⟨fun hf => by simp [mergeAnyListConfig, hf],
      fun v hv => by simp [mergeAnyListConfig, hv],
      fun hf => by simp [mergeAnyListConfig, hf],
      fun v hv => by simp [mergeAnyListConfig, hv],
      fun hf => by simp [mergeAnyListConfig, hf],
      fun v hv => by simp [mergeAnyListConfig, hv],
      fun hf => by simp [mergeAnyListConfig, hf],
      fun v hv => by simp [mergeAnyListConfig, hv],
      fun hf => by simp [mergeAnyListConfig, hf],
      fun v hv => by simp [mergeAnyListConfig, hv],
      fun hf => by simp [mergeAnyListConfig, hf],
      fun v hv => by simp [mergeAnyListConfig, hv]⟩
  · intro config p
    exact ⟨fun hf => by simp [mergeServerConfig, hf],
      fun v hv => by simp [mergeServerConfig, hv],
      fun hf => by simp [mergeServerConfig, hf],
      fun v hv => by simp [mergeServerConfig, hv],
      fun hf => by simp [mergeServerConfig, hf],
      fun v hv => by simp [mergeServerConfig, hv],
      fun hf => by simp [mergeServerConfig, hf],
      fun v hv => by simp [mergeServerConfig, hv],
      fun hf => by simp [mergeServerConfig, hf],
      fun v hv => by simp [mergeServerConfig, hv],
      fun hf => by simp [mergeServerConfig, hf],
      fun v hv => by simp [mergeServerConfig, hv]⟩

/-- Witness for C10 at a concrete one-object heap: the copy's reference is
fresh, and overwriting the copy leaves the instance's config readable
unchanged. -/
theorem getConfig_shallow_copy_updateConfig_merge_witness :
    (AnyList.getConfigHeap ⟨[{ defaultList := some "Shopping" }]⟩ 0).2 ≠ 0 ∧
    ((AnyList.getConfigHeap ⟨[{ defaultList := some "Shopping" }]⟩ 0).1.put
        (AnyList.getConfigHeap ⟨[{ defaultList := some "Shopping" }]⟩ 0).2
        { defaultList := some "Other" }).get 0 =
      (⟨[{ defaultList := some "Shopping" }]⟩ : ObjHeap AnyListConfig).get 0 :=
  ⟨(getConfig_shallow_copy_updateConfig_merge.1
      ⟨[{ defaultList := some "Shopping" }]⟩ 0 (by decide)).1,
   (getConfig_shallow_copy_updateConfig_merge.1
      ⟨[{ defaultList := some "Shopping" }]⟩ 0 (by decide)).2.2
      { defaultList := some "Other" }⟩

end HacsAnylist
